import Mathlib

/-!
Verification development for the gungnir task pool
(src/include/gungnir/gungnir.hpp).

The development has two layers.

* A static model of the dispatch surface (`PoolSt`, `checkArgs1`,
  `checkArgsBulk`, `dispatchV`, `dispatchR`, `dispatchBulkV`, `dispatchBulkR`,
  `dispatchSyncV`, `dispatchSyncR`, `dispatchSerialV`, `dispatchSerialR`,
  `dispatchOnce`, `onComplete`).  A `Task R` is the denotation of a
  `std::function<R()>` value: `none` is the empty (null) function, and
  `some b` carries the behaviour `b : Run R` of invoking the callable — the
  user-visible side effects it performs (`eff`, a list of abstract effect
  ids) and its outcome (`res`, a value or a raised failure).  C++ exceptions
  are modelled with `Except`: a dispatch operation that throws is a
  `.error`, which in particular means the enqueue statements after the
  throwing `checkArgs` call were never reached, so the queue is untouched.

* A dynamic model of the pool lifecycle (`DState`, `Step`, `Reachable`,
  `Finished`) covering the worker loop (lines 45-56), the destructor
  (lines 59-88) with its sentinel phase and its drain phase, and task
  acceptance.  Tasks are identified by opaque ids (`Nat`); the queue is a
  multiset of task ids plus a count of sentinels (a sentinel is the empty
  `Task<void>` value enqueued by the destructor).  Dequeue-and-execute is a
  single atomic transition: in the C++ program a worker that has dequeued a
  task always finishes executing it before the destructor's `join` returns,
  so this abstraction is sound for final-state accounting.  `try_dequeue`
  failing is modelled as the queue holding neither tasks nor sentinels.
-/

namespace Gungnir

/-- A captured C++ exception: either an abstract user failure (identified by
a code) or `std::bad_function_call`, which invoking an empty
`std::function` raises. -/
inductive Exn where
  | code : Nat → Exn
  | badFunctionCall : Exn
deriving DecidableEq

/-- Outcome of invoking a callable: a returned value or a raised failure. -/
inductive Res (R : Type) where
  | ok : R → Res R
  | exn : Exn → Res R
deriving DecidableEq

/-- Denotation of executing a nullary callable returning `R`: the
user-visible side effects it performs (including those performed before a
failure is raised) and its outcome. -/
structure Run (R : Type) where
  eff : List Nat
  res : Res R
deriving DecidableEq

/-- `Task<R> = std::function<R()>` (gungnir.hpp line 34-35).  `none` is the
empty (null) function — the value used as the shutdown sentinel. -/
abbrev Task (R : Type) := Option (Run R)

/-- The behaviour of invoking a `Task R` value: a null target raises
`std::bad_function_call`. -/
def taskBody {R : Type} (t : Task R) : Run R :=
  t.getD { eff := [], res := .exn .badFunctionCall }

/-- Dispatch-time errors thrown by `checkArgs` (lines 251-273):
`std::runtime_error{"task pool already destroyed"}` and
`std::invalid_argument{"task has no target callable object"}`. -/
inductive DispatchError where
  | poolDestroyed
  | invalidTask
deriving DecidableEq

/-- The pool state seen by the dispatch surface: the `destroyed_` flag and
the queue of `Task<void>` values (`tasks_`), in enqueue order. -/
structure PoolSt where
  destroyed : Bool
  queue : List (Task Unit)
deriving DecidableEq

/-- `checkArgs(const T &task)` (lines 251-260): throw `poolDestroyed` if the
pool is destroyed, then `invalidTask` if the task is null. -/
def checkArgs1 {R : Type} (s : PoolSt) (task : Task R) : Except DispatchError Unit :=
  if s.destroyed then .error .poolDestroyed
  else if task.isNone then .error .invalidTask
  else .ok ()

/-- `checkArgs(Iter first, Iter last)` (lines 262-273): throw
`poolDestroyed` if the pool is destroyed, then `invalidTask` unless every
task in the range is non-null (`std::all_of`). -/
def checkArgsBulk {R : Type} (s : PoolSt) (ts : List (Task R)) : Except DispatchError Unit :=
  if s.destroyed then .error .poolDestroyed
  else if ts.all (fun t => t.isSome) then .ok ()
  else .error .invalidTask

/-- `dispatch(const Task<void> &task)` (lines 95-100): check, then enqueue
the task as-is. -/
def dispatchV (s : PoolSt) (task : Task Unit) : Except DispatchError PoolSt :=
  match checkArgs1 s task with
  | .error e => .error e
  | .ok _ => .ok { s with queue := s.queue ++ [task] }

/-- The promise/result slot owned by a value-returning dispatch: unset, or
populated with a value, or populated with a captured failure. -/
inductive Slot (R : Type) where
  | unset
  | value : R → Slot R
  | failure : Exn → Slot R
deriving DecidableEq

/-- The slot contents produced by running the wrapper closure enqueued by
`dispatch<R>` (lines 108-114): `try { p->set_value(task()); } catch (...)
{ p->set_exception(std::current_exception()); }`. -/
def runWrapperR {R : Type} (b : Run R) : Slot R :=
  match b.res with
  | .ok v => .value v
  | .exn e => .failure e

/-- The `Task<void>` behaviour of that wrapper closure: it performs the
task's effects and never itself throws (the catch-all captures every
failure into the slot). -/
def wrapperV {R : Type} (b : Run R) : Run Unit :=
  { eff := b.eff, res := .ok () }

/-- Blocking `future.get()` on a slot: would block while unset; otherwise
returns the value or re-raises the captured failure. -/
def futureGet {R : Type} (sl : Slot R) : Option (Res R) :=
  match sl with
  | .unset => none
  | .value v => some (.ok v)
  | .failure e => some (.exn e)

/-- `dispatch<R>(const Task<R> &task)` (lines 102-116): check, then enqueue
the wrapper closure around the task.  (`taskBody` is the behaviour of
invoking the captured `std::function`; `checkArgs1` has already ruled out a
null target on the success path.)  The returned future is the caller's view
of `runWrapperR` applied to the task's behaviour. -/
def dispatchR {R : Type} (s : PoolSt) (task : Task R) : Except DispatchError PoolSt :=
  match checkArgs1 s task with
  | .error e => .error e
  | .ok _ => .ok { s with queue := s.queue ++ [some (wrapperV (taskBody task))] }

/-- The per-element loop of the bulk value-returning forms: each element is
dispatched through the single `dispatch<R>` in range order (lines 139-141),
threading the pool state. -/
def dispatchRList {R : Type} (s : PoolSt) : List (Task R) → Except DispatchError PoolSt
  | [] => .ok s
  | t :: ts =>
    match dispatchR s t with
    | .error e => .error e
    | .ok s' => dispatchRList s' ts

/-- The per-element loop of `dispatchSync` (void): each element is wrapped
and dispatched through the single void `dispatch` in range order
(lines 157-166), threading the pool state. -/
def dispatchVList (s : PoolSt) : List (Task Unit) → Except DispatchError PoolSt
  | [] => .ok s
  | t :: ts =>
    match dispatchV s t with
    | .error e => .error e
    | .ok s' => dispatchVList s' ts

/-- `dispatch(Iter first, Iter last)` (lines 118-127): return immediately
on an empty range, otherwise check the whole range and bulk-enqueue the
tasks as-is. -/
def dispatchBulkV (s : PoolSt) (ts : List (Task Unit)) : Except DispatchError PoolSt :=
  if ts.isEmpty then .ok s
  else
    match checkArgsBulk s ts with
    | .error e => .error e
    | .ok _ => .ok { s with queue := s.queue ++ ts }

/-- `dispatch<R>(Iter first, Iter last)` (lines 129-143): return
immediately on an empty range, otherwise check the whole range and dispatch
each element through the single `dispatch<R>`, collecting futures in input
order. -/
def dispatchBulkR {R : Type} (s : PoolSt) (ts : List (Task R)) : Except DispatchError PoolSt :=
  if ts.isEmpty then .ok s
  else
    match checkArgsBulk s ts with
    | .error e => .error e
    | .ok _ => dispatchRList s ts

/-- `dispatchSync(Iter first, Iter last)` (lines 145-170): return
immediately on an empty range, otherwise check the whole range and dispatch
each element wrapped in the count-down closure.  The closure runs the bound
task and then decrements the shared counter under the mutex; the counter
bookkeeping is internal synchronization with no user-visible effect, and a
task failure propagates out of the closure, so the wrapper's behaviour is
the task's own behaviour.  The caller's final wait on the condition
variable is blocking synchronization, not modelled here. -/
def dispatchSyncV (s : PoolSt) (ts : List (Task Unit)) : Except DispatchError PoolSt :=
  if ts.isEmpty then .ok s
  else
    match checkArgsBulk s ts with
    | .error e => .error e
    | .ok _ => dispatchVList s (ts.map (fun t => some (taskBody t)))

/-- `dispatchSync<R>(Iter first, Iter last)` (lines 172-196): return
immediately on an empty range, otherwise check the whole range and dispatch
each element through the single `dispatch<R>` (the `std::bind` wrapper
`return t();` behaves exactly as the bound task).  The final gather of the
futures is blocking, not modelled here. -/
def dispatchSyncR {R : Type} (s : PoolSt) (ts : List (Task R)) : Except DispatchError PoolSt :=
  if ts.isEmpty then .ok s
  else
    match checkArgsBulk s ts with
    | .error e => .error e
    | .ok _ => dispatchRList s (ts.map (fun t => some (taskBody t)))

/-- The `for (const auto &t: *tasks) t();` loop of the void serial
composite (lines 207-211): run the bodies in order; a raised failure aborts
the loop and propagates out of the composite (there is no try/catch). -/
def runSeq : List (Run Unit) → Run Unit
  | [] => { eff := [], res := .ok () }
  | b :: bs =>
    match b.res with
    | .ok _ => { eff := b.eff ++ (runSeq bs).eff, res := (runSeq bs).res }
    | .exn e => { eff := b.eff, res := .exn e }

/-- The single composite task built by void `dispatchSerial` from the
copied range (lines 206-211). -/
def serialBody (ts : List (Task Unit)) : Run Unit :=
  runSeq (ts.map taskBody)

/-- `dispatchSerial(Iter first, Iter last)` (lines 198-212): return
immediately on an empty range, otherwise check the whole range, copy it
into one composite task and enqueue that composite once through the single
void `dispatch`. -/
def dispatchSerialV (s : PoolSt) (ts : List (Task Unit)) : Except DispatchError PoolSt :=
  if ts.isEmpty then .ok s
  else
    match checkArgsBulk s ts with
    | .error e => .error e
    | .ok _ => dispatchV s (some (serialBody ts))

/-- The result slots populated by the value-returning serial composite
(lines 231-239): slot `i` receives the outcome of task `i` through its own
try/catch, independently of every other slot. -/
def serialRSlots {R : Type} (ts : List (Task R)) : List (Slot R) :=
  ts.map (fun t => runWrapperR (taskBody t))

/-- The `for (std::size_t i = 0; ...)` loop of the value-returning serial
composite (lines 232-238), as a `Task<void>` behaviour: each iteration
runs its task inside its own try/catch (the failure goes into that
iteration's slot), so the loop continues whatever the task's outcome and
the composite itself never throws. -/
def runSeqCaught {R : Type} : List (Run R) → Run Unit
  | [] => { eff := [], res := .ok () }
  | b :: bs => { eff := b.eff ++ (runSeqCaught bs).eff, res := (runSeqCaught bs).res }

/-- The `Task<void>` behaviour of the value-returning serial composite
built from the copied range (lines 230-239). -/
def serialRBody {R : Type} (ts : List (Task R)) : Run Unit :=
  runSeqCaught (ts.map taskBody)

/-- `dispatchSerial<R>(Iter first, Iter last)` (lines 214-241): return
immediately on an empty range, otherwise check the whole range, build one
promise per input, copy the range into one composite task and enqueue that
composite once through the single void `dispatch`.  The returned futures
observe `serialRSlots`. -/
def dispatchSerialR {R : Type} (s : PoolSt) (ts : List (Task R)) : Except DispatchError PoolSt :=
  if ts.isEmpty then .ok s
  else
    match checkArgsBulk s ts with
    | .error e => .error e
    | .ok _ => dispatchV s (some (serialRBody ts))

/-- The behaviour of the wrapper enqueued by `dispatchOnce` when it
eventually executes (lines 245-247): `std::call_once(flag, task)` is a
no-op if the once-flag was already used, and otherwise invokes the task —
invoking a null `std::function` raises `std::bad_function_call`. -/
def onceBody (flagAlreadyUsed : Bool) (task : Task Unit) : Run Unit :=
  if flagAlreadyUsed then { eff := [], res := .ok () }
  else taskBody task

/-- `dispatchOnce(std::once_flag &flag, const Task<void> &task)`
(lines 243-248): dispatch the lambda `[task, &flag] { std::call_once(flag,
task); }` through the single void `dispatch`.  The lambda itself is never a
null callable, whatever `task` is; `checkArgs` runs on the lambda.
`flagAlreadyUsed` is the state of the caller-owned once-flag at the moment
the wrapper executes. -/
def dispatchOnce (s : PoolSt) (flagAlreadyUsed : Bool) (task : Task Unit) :
    Except DispatchError PoolSt :=
  dispatchV s (some (onceBody flagAlreadyUsed task))

/-- A recorded invocation of one of the two callbacks handed to
`onComplete`. -/
inductive CbCall (R : Type) where
  | okCall : R → CbCall R
  | errCall : Exn → CbCall R
deriving DecidableEq

/-- `onComplete(future, success, failure)` (lines 309-322), the body of the
detached thread: `try { success(future.get()); } catch (...) {
failure(std::current_exception()); }`.  `fut` is the resolved outcome of
the shared future and `success` the success callback, which may itself
raise; the returned list records the callback invocations in order.  If
`future.get()` raises, the catch-all invokes the failure callback with that
failure; if `success` raises after being invoked with the value, the same
catch-all invokes the failure callback with the failure raised by
`success`. -/
def onComplete {R : Type} (fut : Res R) (success : R → Res Unit) : List (CbCall R) :=
  match fut with
  | .exn e => [.errCall e]
  | .ok v =>
    match success v with
    | .ok _ => [.okCall v]
    | .exn e => [.okCall v, .errCall e]

/-- The worker count used by the defaulted constructor argument
(lines 39-40): `std::thread::hardware_concurrency()` is used as-is, with no
clamping. -/
def hardwareDefaultNumThreads (hardwareConcurrency : Nat) : Nat :=
  hardwareConcurrency

/-- The drainer loop condition (lines 77-83): `do { pump } while
(numThreads_ == numDones.fetch_add(1, ...) + 1);`.  Given the counter value
before the drainer's own increment, whether the drainer performs another
drain pass (`true`) or terminates (`false`).  `fetch_add` returns the value
the counter held before the increment. -/
def drainerContinues (numThreads numDonesPrev : Nat) : Bool :=
  numThreads == numDonesPrev + 1

/-- The dynamic state of the pool lifecycle.  Tasks are opaque ids
(`Nat`).  `accepted` are the tasks successfully enqueued through the
dispatch surface; `bagTasks` and `bagSentinels` are the current queue
contents (real tasks, and empty sentinel tasks enqueued by the destructor);
`executed` are the tasks whose execution has completed; `liveWorkers` is
the number of worker threads still in their loop; `destroyed` is the
`destroyed_` flag; `sentinelsEnqueued` counts the destructor's sentinel
enqueues; `drainPhase` holds once the destructor has spawned the drainer
threads, `liveDrainers` counting those still in their loop and `numDones`
being the shared `std::atomic<std::size_t>` counter. -/
structure DState where
  accepted : Multiset Nat
  bagTasks : Multiset Nat
  bagSentinels : Nat
  liveWorkers : Nat
  executed : Multiset Nat
  destroyed : Bool
  sentinelsEnqueued : Nat
  drainPhase : Bool
  liveDrainers : Nat
  numDones : Nat
deriving DecidableEq

/-- The pool state right after the constructor (lines 39-57) returns for a
pool of `numThreads` workers: `numThreads` workers are live, the queue is
empty and nothing has been dispatched. -/
def DState.init (numThreads : Nat) : DState :=
  { accepted := 0, bagTasks := 0, bagSentinels := 0, liveWorkers := numThreads,
    executed := 0, destroyed := false, sentinelsEnqueued := 0,
    drainPhase := false, liveDrainers := 0, numDones := 0 }

/-- One interleaved step of the pool of `numThreads` workers.

* `enqueue`: a dispatch operation passes `checkArgs` (so `destroyed_` was
  false) and places a task on the queue.
* `workerRun`: a live worker dequeues a real task and executes it
  (lines 50-53); any task in the queue may be delivered, since the
  underlying MPMC queue promises no global FIFO order across producers and
  consumers.
* `workerExit`: a live worker dequeues a sentinel and leaves its loop
  (line 51, the `while (t)` test failing).
* `seal`: the destructor sets `destroyed_ = true` (line 61).
* `enqSentinel`: the destructor enqueues one of its `numThreads` sentinels
  (lines 63-65).
* `startDrain`: after all sentinels are enqueued and every worker has been
  joined, the destructor spawns the `numThreads` drainer threads with the
  shared counter at zero (lines 70-84).
* `drainRun`: a live drainer's `try_dequeue` obtains a task, which the
  drainer executes (lines 78-80).
* `drainObserve`: a live drainer's `try_dequeue` fails — the queue holds
  neither tasks nor sentinels — ending its pass; the drainer performs
  `numDones.fetch_add(1)` and continues into another pass exactly when
  `drainerContinues` holds of the counter value the `fetch_add` returned
  (lines 81-82), leaving its loop otherwise. -/
inductive Step (numThreads : Nat) : DState → DState → Prop where
  | enqueue (s : DState) (t : Nat) :
      s.destroyed = false →
      Step numThreads s
        { s with accepted := t ::ₘ s.accepted, bagTasks := t ::ₘ s.bagTasks }
  | workerRun (s : DState) (t : Nat) :
      0 < s.liveWorkers → t ∈ s.bagTasks →
      Step numThreads s
        { s with bagTasks := s.bagTasks.erase t, executed := t ::ₘ s.executed }
  | workerExit (s : DState) :
      0 < s.liveWorkers → 0 < s.bagSentinels →
      Step numThreads s
        { s with liveWorkers := s.liveWorkers - 1,
                 bagSentinels := s.bagSentinels - 1 }
  | sealFlag (s : DState) :
      s.destroyed = false →
      Step numThreads s { s with destroyed := true }
  | enqSentinel (s : DState) :
      s.destroyed = true → s.sentinelsEnqueued < numThreads →
      Step numThreads s
        { s with bagSentinels := s.bagSentinels + 1,
                 sentinelsEnqueued := s.sentinelsEnqueued + 1 }
  | startDrain (s : DState) :
      s.destroyed = true → s.sentinelsEnqueued = numThreads →
      s.liveWorkers = 0 → s.drainPhase = false →
      Step numThreads s
        { s with drainPhase := true, liveDrainers := numThreads, numDones := 0 }
  | drainRun (s : DState) (t : Nat) :
      s.drainPhase = true → 0 < s.liveDrainers → t ∈ s.bagTasks →
      Step numThreads s
        { s with bagTasks := s.bagTasks.erase t, executed := t ::ₘ s.executed }
  | drainObserve (s : DState) :
      s.drainPhase = true → 0 < s.liveDrainers →
      s.bagTasks = 0 → s.bagSentinels = 0 →
      Step numThreads s
        { s with numDones := s.numDones + 1,
                 liveDrainers :=
                   if drainerContinues numThreads s.numDones then s.liveDrainers
                   else s.liveDrainers - 1 }

/-- States the pool of `numThreads` workers can be in at any point of its
lifetime. -/
def Reachable (numThreads : Nat) (s : DState) : Prop :=
  Relation.ReflTransGen (Step numThreads) (DState.init numThreads) s

/-- The destructor has completed its shutdown sequence: the drain phase was
entered and every drainer has been joined. -/
def Finished (s : DState) : Prop :=
  s.drainPhase = true ∧ s.liveDrainers = 0

/-- The inductive invariant of the lifecycle transition system. -/
structure Inv (numThreads : Nat) (s : DState) : Prop where
  acc : s.accepted = s.bagTasks + s.executed
  drain_destroyed : s.drainPhase = true → s.destroyed = true
  drain_workers : s.drainPhase = true → s.liveWorkers = 0
  drain_sentinels : s.drainPhase = true → s.sentinelsEnqueued = numThreads
  drain_empty : s.drainPhase = true → s.liveDrainers < numThreads → s.bagTasks = 0
  live_workers : s.destroyed = false → s.liveWorkers = numThreads
  live_no_sentinels : s.destroyed = false → s.bagSentinels = 0

/-- A concrete lifecycle of a one-worker pool: dispatch task `5`, then run
the destructor to completion.  Used to exercise the exactly-once theorem on
an explicit trace. -/
def c1w0 : DState := DState.init 1

/-- `dispatch` accepts task `5`. -/
def c1w1 : DState :=
  { c1w0 with accepted := 5 ::ₘ c1w0.accepted, bagTasks := 5 ::ₘ c1w0.bagTasks }

/-- The destructor sets `destroyed_`. -/
def c1w2 : DState := { c1w1 with destroyed := true }

/-- The destructor enqueues its single sentinel. -/
def c1w3 : DState :=
  { c1w2 with bagSentinels := c1w2.bagSentinels + 1,
              sentinelsEnqueued := c1w2.sentinelsEnqueued + 1 }

/-- The worker dequeues and executes task `5`. -/
def c1w4 : DState :=
  { c1w3 with bagTasks := c1w3.bagTasks.erase 5, executed := 5 ::ₘ c1w3.executed }

/-- The worker dequeues the sentinel and leaves its loop. -/
def c1w5 : DState :=
  { c1w4 with liveWorkers := c1w4.liveWorkers - 1,
              bagSentinels := c1w4.bagSentinels - 1 }

/-- The destructor spawns the single drainer. -/
def c1w6 : DState :=
  { c1w5 with drainPhase := true, liveDrainers := 1, numDones := 0 }

/-- The drainer sees the queue empty; its increment reaches the worker
count, so it goes into another pass. -/
def c1w7 : DState :=
  { c1w6 with numDones := c1w6.numDones + 1,
              liveDrainers :=
                if drainerContinues 1 c1w6.numDones then c1w6.liveDrainers
                else c1w6.liveDrainers - 1 }

/-- The drainer sees the queue empty again; this increment does not hit the
worker count, so it leaves its loop and the destructor returns. -/
def c1w8 : DState :=
  { c1w7 with numDones := c1w7.numDones + 1,
              liveDrainers :=
                if drainerContinues 1 c1w7.numDones then c1w7.liveDrainers
                else c1w7.liveDrainers - 1 }

/-- A concrete lifecycle of a zero-worker pool (`TaskPool{0}`, or the
defaulted constructor argument on hardware whose concurrency is reported as
0): dispatch task `7`, then run the destructor, whose loops all iterate
zero times. -/
def c1b0 : DState := DState.init 0

/-- `dispatch` accepts task `7` (`checkArgs` passes: the pool is not
destroyed and the task is non-null). -/
def c1b1 : DState :=
  { c1b0 with accepted := 7 ::ₘ c1b0.accepted, bagTasks := 7 ::ₘ c1b0.bagTasks }

/-- The destructor sets `destroyed_`; it has no sentinels to enqueue and no
workers to join. -/
def c1b2 : DState := { c1b1 with destroyed := true }

/-- The destructor "spawns" its zero drainers and returns at once: the
shutdown sequence is finished with task `7` still in the queue. -/
def c1b3 : DState :=
  { c1b2 with drainPhase := true, liveDrainers := 0, numDones := 0 }

/-- Moving an element of a bag into the executed pile preserves the total. -/
theorem bag_move (t : Nat) (b e : Multiset Nat) (ht : t ∈ b) :
    b.erase t + (t ::ₘ e) = b + e := by
  rw [Multiset.add_cons, ← Multiset.cons_add, Multiset.cons_erase ht]

/-- The invariant holds in the initial state. -/
theorem inv_init (numThreads : Nat) : Inv numThreads (DState.init numThreads) := by
  refine ⟨?_, ?_, ?_, ?_, ?_, ?_, ?_⟩ <;> simp [DState.init]

/-- The invariant is preserved by every step. -/
theorem inv_step {numThreads : Nat} {s s' : DState}
    (h : Inv numThreads s) (hs : Step numThreads s s') : Inv numThreads s' := by
  cases hs with
  | enqueue t hd =>
      refine ⟨?_, h.drain_destroyed, h.drain_workers, h.drain_sentinels, ?_,
        h.live_workers, h.live_no_sentinels⟩
      · simp [h.acc, Multiset.cons_add]
      · intro hdp
        exact absurd (h.drain_destroyed hdp) (by simp [hd])
  | workerRun t hw ht =>
      refine ⟨?_, h.drain_destroyed, h.drain_workers, h.drain_sentinels, ?_,
        h.live_workers, h.live_no_sentinels⟩
      · simpa [bag_move t _ _ ht] using h.acc
      · intro hdp hld
        have hb := h.drain_empty hdp hld
        simp [hb] at ht
  | workerExit hw hsent =>
      refine ⟨h.acc, h.drain_destroyed, ?_, h.drain_sentinels, h.drain_empty, ?_, ?_⟩
      · intro hdp
        have := h.drain_workers hdp
        omega
      · intro hd
        have := h.live_no_sentinels hd
        omega
      · intro hd
        have := h.live_no_sentinels hd
        omega
  | sealFlag hd =>
      refine ⟨h.acc, fun _ => rfl, h.drain_workers, h.drain_sentinels,
        h.drain_empty, ?_, ?_⟩
      · intro h'
        simp at h'
      · intro h'
        simp at h'
  | enqSentinel hd hlt =>
      refine ⟨h.acc, h.drain_destroyed, h.drain_workers, ?_, h.drain_empty, ?_, ?_⟩
      · intro hdp
        have := h.drain_sentinels hdp
        omega
      · intro h'
        rw [hd] at h'
        simp at h'
      · intro h'
        rw [hd] at h'
        simp at h'
  | startDrain hd hse hw hdp =>
      refine ⟨h.acc, fun _ => hd, fun _ => hw, fun _ => hse, ?_, ?_, ?_⟩
      · intro _ hlt
        simp at hlt
      · intro h'
        rw [hd] at h'
        simp at h'
      · intro h'
        rw [hd] at h'
        simp at h'
  | drainRun t hdp hld ht =>
      refine ⟨?_, h.drain_destroyed, h.drain_workers, h.drain_sentinels, ?_,
        h.live_workers, h.live_no_sentinels⟩
      · simpa [bag_move t _ _ ht] using h.acc
      · intro _ hlt
        have hb := h.drain_empty hdp hlt
        simp [hb] at ht
  | drainObserve hdp hld hbt hbs =>
      refine ⟨h.acc, h.drain_destroyed, h.drain_workers, h.drain_sentinels,
        ?_, h.live_workers, h.live_no_sentinels⟩
      intro _ _
      exact hbt

/-- Every reachable state satisfies the invariant. -/
theorem inv_reachable {numThreads : Nat} {s : DState}
    (h : Reachable numThreads s) : Inv numThreads s := by
  induction h with
  | refl => exact inv_init numThreads
  | tail _ hstep ih => exact inv_step ih hstep

/-- C1 (amended: the pool must have at least one worker thread): in a pool
of at least one worker, when the destructor has finished its shutdown
sequence, the multiset of executed tasks equals the multiset of tasks
successfully enqueued through the dispatch surface — every accepted task
was executed exactly once, neither dropped nor run twice, in every
interleaving the lifecycle transition system admits. -/
theorem accepted_tasks_execute_exactly_once (numThreads : Nat)
    (hN : 1 ≤ numThreads) (s : DState) (hr : Reachable numThreads s)
    (hf : Finished s) : s.executed = s.accepted := by
  have hi := inv_reachable hr
  have hld : s.liveDrainers < numThreads := by
    have := hf.2
    omega
  have hbt : s.bagTasks = 0 := hi.drain_empty hf.1 hld
  have hacc := hi.acc
  rw [hbt, zero_add] at hacc
  exact hacc.symm

/-- Witness for C1: the explicit one-worker trace `c1w0 … c1w8` reaches a
finished state, and there the executed multiset equals the accepted one. -/
theorem accepted_tasks_execute_exactly_once_witness :
    c1w8.executed = c1w8.accepted := by
  apply accepted_tasks_execute_exactly_once 1 (by decide) c1w8 ?_ ?_
  · refine Relation.ReflTransGen.head (Step.enqueue c1w0 5 rfl) ?_
    refine Relation.ReflTransGen.head (Step.sealFlag c1w1 rfl) ?_
    refine Relation.ReflTransGen.head (Step.enqSentinel c1w2 rfl (by decide)) ?_
    refine Relation.ReflTransGen.head (Step.workerRun c1w3 5 (by decide) (by decide)) ?_
    refine Relation.ReflTransGen.head (Step.workerExit c1w4 (by decide) (by decide)) ?_
    refine Relation.ReflTransGen.head (Step.startDrain c1w5 rfl rfl rfl rfl) ?_
    refine Relation.ReflTransGen.head (Step.drainObserve c1w6 rfl (by decide) (by decide) (by decide)) ?_
    refine Relation.ReflTransGen.head (Step.drainObserve c1w7 rfl (by decide) (by decide) (by decide)) ?_
    exact Relation.ReflTransGen.refl
  · exact ⟨rfl, by decide⟩

/-- Counterexample to C1 as stated: a pool with zero workers (obtained from
`TaskPool{0}`, or from the defaulted constructor argument when
`std::thread::hardware_concurrency()` reports 0) accepts task `7` and
finishes its whole shutdown sequence without ever executing it — the task
is dropped, so not every successfully enqueued task runs exactly once. -/
theorem zero_worker_pool_drops_accepted_task :
    Reachable 0 c1b3 ∧ Finished c1b3 ∧
    Multiset.count 7 c1b3.accepted = 1 ∧ Multiset.count 7 c1b3.executed = 0 := by
  refine ⟨?_, ⟨rfl, rfl⟩, by decide, by decide⟩
  refine Relation.ReflTransGen.head (Step.enqueue c1b0 7 rfl) ?_
  refine Relation.ReflTransGen.head (Step.sealFlag c1b1 rfl) ?_
  refine Relation.ReflTransGen.head (Step.startDrain c1b2 rfl rfl rfl rfl) ?_
  exact Relation.ReflTransGen.refl

/-- Counterexample to C2 as stated: it is not the case that a drainer
terminates its loop exactly when its increment makes the counter reach the
worker count.  At `numThreads = 2` with the counter previously `0`, the
increment makes the counter `1 ≠ 2`, yet `drainerContinues` is `false`:
the drainer leaves its loop instead of performing another drain pass. -/
theorem drainer_termination_claim_false :
    ¬ (∀ numThreads numDonesPrev : Nat,
        drainerContinues numThreads numDonesPrev = false ↔
          numDonesPrev + 1 = numThreads) := by
  intro h
  have h2 := (h 2 0).mp (by decide)
  omega

/-- C2 (amended): the loop condition of the drainer threads is the reverse
of the claimed one — a drainer performs another drain pass exactly when its
increment makes the shared counter reach the worker count, and terminates
its loop exactly when it does not. -/
theorem drainer_pass_condition (numThreads numDonesPrev : Nat) :
    (drainerContinues numThreads numDonesPrev = true ↔
       numDonesPrev + 1 = numThreads) ∧
    (drainerContinues numThreads numDonesPrev = false ↔
       numDonesPrev + 1 ≠ numThreads) := by
  constructor
  · simp only [drainerContinues, beq_iff_eq]
    exact eq_comm
  · simp only [drainerContinues, beq_eq_false_iff_ne]
    exact ne_comm

/-- Counterexample to C9 as stated: with the default constructor argument
on hardware whose reported concurrency is 0, the pool has zero workers —
the claimed minimum of one worker does not exist in the code. -/
theorem default_zero_hardware_means_zero_workers :
    ¬ (1 ≤ (DState.init (hardwareDefaultNumThreads 0)).liveWorkers) := by
  decide

/-- C9 (amended: no minimum of 1 is enforced): construction with the
default thread-count argument spawns exactly
`std::thread::hardware_concurrency()` workers — possibly zero — and that
many workers stay live in their loops until the shutdown seal, after which
they exit only by consuming sentinels. -/
theorem default_pool_worker_count (hw : Nat) :
    (DState.init (hardwareDefaultNumThreads hw)).liveWorkers = hw ∧
    (∀ s : DState, Reachable (hardwareDefaultNumThreads hw) s →
       s.destroyed = false → s.liveWorkers = hw) := by
  refine ⟨rfl, ?_⟩
  intro s hr hd
  exact (inv_reachable hr).live_workers hd

/-- Witness for C9 (amended), at `hardware_concurrency = 3` and the initial
state. -/
theorem default_pool_worker_count_witness :
    (DState.init (hardwareDefaultNumThreads 3)).liveWorkers = 3 :=
  (default_pool_worker_count 3).2 (DState.init (hardwareDefaultNumThreads 3))
    Relation.ReflTransGen.refl rfl

/-- On a destroyed pool, the single-task precondition check throws
`poolDestroyed`, whatever the task. -/
theorem checkArgs1_destroyed {R : Type} {s : PoolSt} (hd : s.destroyed = true)
    (t : Task R) : checkArgs1 s t = .error .poolDestroyed := by
  simp [checkArgs1, hd]

/-- On a destroyed pool, the range precondition check throws
`poolDestroyed`, whatever the range. -/
theorem checkArgsBulk_destroyed {R : Type} {s : PoolSt} (hd : s.destroyed = true)
    (ts : List (Task R)) : checkArgsBulk s ts = .error .poolDestroyed := by
  simp [checkArgsBulk, hd]

/-- On a live pool, the range precondition check throws `invalidTask` as
soon as the range contains a null task. -/
theorem checkArgsBulk_invalid {R : Type} {s : PoolSt} (hd : s.destroyed = false)
    {ts : List (Task R)} (hn : none ∈ ts) :
    checkArgsBulk s ts = .error .invalidTask := by
  have hall : ts.all (fun t => t.isSome) = false := by
    rw [List.all_eq_false]
    exact ⟨none, hn, by simp⟩
  simp [checkArgsBulk, hd, hall]

/-- On a live pool, the range precondition check passes when every task in
the range is non-null. -/
theorem checkArgsBulk_valid {R : Type} {s : PoolSt} (hd : s.destroyed = false)
    {ts : List (Task R)} (hv : ∀ t ∈ ts, t ≠ none) :
    checkArgsBulk s ts = .ok () := by
  have hall : ts.all (fun t => t.isSome) = true := by
    rw [List.all_eq_true]
    intro t ht
    cases t with
    | none => exact absurd rfl (hv none ht)
    | some b => rfl
  simp [checkArgsBulk, hd, hall]

/-- C3 (amended: the range-based operations return at once on an empty
range, before looking at the `destroyed_` flag): on a destroyed pool every
dispatch operation given a single task or a non-empty range throws
`poolDestroyed` before reaching any enqueue statement, while every
range-based operation given an empty range returns normally with the pool
untouched; in both cases nothing is enqueued. -/
theorem destroyed_pool_rejects_dispatch (R : Type) (s : PoolSt)
    (hd : s.destroyed = true) :
    (∀ t : Task Unit, dispatchV s t = .error .poolDestroyed) ∧
    (∀ t : Task R, dispatchR s t = .error .poolDestroyed) ∧
    (∀ fl : Bool, ∀ t : Task Unit, dispatchOnce s fl t = .error .poolDestroyed) ∧
    (∀ ts : List (Task Unit), ts ≠ [] → dispatchBulkV s ts = .error .poolDestroyed) ∧
    (∀ ts : List (Task R), ts ≠ [] → dispatchBulkR s ts = .error .poolDestroyed) ∧
    (∀ ts : List (Task Unit), ts ≠ [] → dispatchSyncV s ts = .error .poolDestroyed) ∧
    (∀ ts : List (Task R), ts ≠ [] → dispatchSyncR s ts = .error .poolDestroyed) ∧
    (∀ ts : List (Task Unit), ts ≠ [] → dispatchSerialV s ts = .error .poolDestroyed) ∧
    (∀ ts : List (Task R), ts ≠ [] → dispatchSerialR s ts = .error .poolDestroyed) ∧
    dispatchBulkV s [] = .ok s ∧
    dispatchBulkR s ([] : List (Task R)) = .ok s ∧
    dispatchSyncV s [] = .ok s ∧
    dispatchSyncR s ([] : List (Task R)) = .ok s ∧
    dispatchSerialV s [] = .ok s ∧
    dispatchSerialR s ([] : List (Task R)) = .ok s := by
  refine ⟨fun t => ?_, fun t => ?_, fun fl t => ?_,
    fun ts h => ?_, fun ts h => ?_, fun ts h => ?_, fun ts h => ?_,
    fun ts h => ?_, fun ts h => ?_, rfl, rfl, rfl, rfl, rfl, rfl⟩
  · simp [dispatchV, checkArgs1_destroyed hd]
  · simp [dispatchR, checkArgs1_destroyed hd]
  · simp [dispatchOnce, dispatchV, checkArgs1_destroyed hd]
  all_goals cases ts with
  | nil => exact absurd rfl h
  | cons t ts =>
    first
    | simp [dispatchBulkV, checkArgsBulk_destroyed hd]
    | simp [dispatchBulkR, checkArgsBulk_destroyed hd]
    | simp [dispatchSyncV, checkArgsBulk_destroyed hd]
    | simp [dispatchSyncR, checkArgsBulk_destroyed hd]
    | simp [dispatchSerialV, checkArgsBulk_destroyed hd]
    | simp [dispatchSerialR, checkArgsBulk_destroyed hd]

/-- Witness for C3 (amended), on a concretely destroyed pool. -/
theorem destroyed_pool_rejects_dispatch_witness :
    dispatchV ⟨true, []⟩ (some { eff := [], res := .ok () }) =
      .error .poolDestroyed ∧
    dispatchBulkV ⟨true, []⟩ [some { eff := [], res := .ok () }] =
      .error .poolDestroyed ∧
    dispatchOnce ⟨true, []⟩ false none = .error .poolDestroyed := by
  have h := destroyed_pool_rejects_dispatch Nat ⟨true, []⟩ rfl
  exact ⟨h.1 _, h.2.2.2.1 _ (by simp), h.2.2.1 false none⟩

/-- Counterexample to C3 as stated: a bulk dispatch of an empty range on a
destroyed pool does not fail — it returns normally, with no error raised
(the `first >= last` early return precedes the `checkArgs` call). -/
theorem destroyed_pool_empty_range_no_error :
    dispatchBulkV ⟨true, []⟩ [] = .ok ⟨true, []⟩ ∧
    dispatchBulkV ⟨true, []⟩ [] ≠ .error .poolDestroyed :=
  ⟨rfl, fun h => Except.noConfusion h⟩

/-- C4: a bulk dispatch (independent, synchronous, or serial, in the void
or the value-returning form) of a non-empty range that contains a null
task on a live pool throws `invalidTask` from `checkArgs`, which inspects
the whole range (`std::all_of`) before any enqueue statement runs — none
of the batch is enqueued. -/
theorem bulk_dispatch_rejects_invalid_batch (R : Type) (s : PoolSt)
    (hd : s.destroyed = false) (tv : List (Task Unit)) (tr : List (Task R))
    (hv : tv ≠ []) (hvn : none ∈ tv) (hr : tr ≠ []) (hrn : none ∈ tr) :
    dispatchBulkV s tv = .error .invalidTask ∧
    dispatchSyncV s tv = .error .invalidTask ∧
    dispatchSerialV s tv = .error .invalidTask ∧
    dispatchBulkR s tr = .error .invalidTask ∧
    dispatchSyncR s tr = .error .invalidTask ∧
    dispatchSerialR s tr = .error .invalidTask := by
  refine ⟨?_, ?_, ?_, ?_, ?_, ?_⟩
  all_goals first
    | (cases tv with
       | nil => exact absurd rfl hv
       | cons t ts =>
         first
         | simp [dispatchBulkV, checkArgsBulk_invalid hd hvn]
         | simp [dispatchSyncV, checkArgsBulk_invalid hd hvn]
         | simp [dispatchSerialV, checkArgsBulk_invalid hd hvn])
    | (cases tr with
       | nil => exact absurd rfl hr
       | cons t ts =>
         first
         | simp [dispatchBulkR, checkArgsBulk_invalid hd hrn]
         | simp [dispatchSyncR, checkArgsBulk_invalid hd hrn]
         | simp [dispatchSerialR, checkArgsBulk_invalid hd hrn])

/-- Witness for C4, with the one-element range holding a null task on a
live pool. -/
theorem bulk_dispatch_rejects_invalid_batch_witness :
    dispatchBulkV ⟨false, []⟩ [none] = .error .invalidTask ∧
    dispatchBulkR ⟨false, []⟩ ([none] : List (Task Nat)) = .error .invalidTask := by
  have h := bulk_dispatch_rejects_invalid_batch Nat ⟨false, []⟩ rfl
    [none] [none] (by simp) (by simp) (by simp) (by simp)
  exact ⟨h.1, h.2.2.2.1⟩

/-- C5: on a live pool, the single value-returning dispatch enqueues
exactly the wrapper closure around the task, and the future's resolution is
the task's own outcome — a failure raised by the task is surfaced as that
failure (never a silent success), and a returned value is yielded as that
value. -/
theorem dispatchR_future_surfaces_outcome (R : Type) (s : PoolSt) (b : Run R)
    (hd : s.destroyed = false) :
    dispatchR s (some b) = .ok { s with queue := s.queue ++ [some (wrapperV b)] } ∧
    futureGet (runWrapperR b) = some b.res ∧
    (∀ e : Exn, b.res = .exn e → runWrapperR b = .failure e) ∧
    (∀ v : R, b.res = .ok v → runWrapperR b = .value v) := by
  refine ⟨?_, ?_, ?_, ?_⟩
  · simp [dispatchR, checkArgs1, hd, taskBody]
  · cases hres : b.res <;> simp [runWrapperR, futureGet, hres]
  · intro e he
    simp [runWrapperR, he]
  · intro v hv
    simp [runWrapperR, hv]

/-- Witness for C5: a failing task's future surfaces the failure, a
succeeding task's future yields the value. -/
theorem dispatchR_future_surfaces_outcome_witness :
    futureGet (runWrapperR ({ eff := [1], res := .exn (.code 9) } : Run Nat)) =
      some (.exn (.code 9)) ∧
    futureGet (runWrapperR ({ eff := [2], res := .ok 4 } : Run Nat)) =
      some (.ok 4) :=
  ⟨(dispatchR_future_surfaces_outcome Nat ⟨false, []⟩ _ rfl).2.1,
   (dispatchR_future_surfaces_outcome Nat ⟨false, []⟩ _ rfl).2.1⟩

/-- When every body in the list succeeds, the void serial loop performs all
their effects, concatenated in input order, and itself succeeds. -/
theorem runSeq_all_ok (bs : List (Run Unit)) (h : ∀ b ∈ bs, b.res = .ok ()) :
    (runSeq bs).eff = (bs.map Run.eff).flatten ∧ (runSeq bs).res = .ok () := by
  induction bs with
  | nil => simp [runSeq]
  | cons b bs ih =>
    have hb := h b (by simp)
    have ih' := ih (fun x hx => h x (List.mem_cons_of_mem b hx))
    simp [runSeq, hb, ih'.1, ih'.2]

/-- The caught serial loop performs all bodies' effects, concatenated in
input order, whatever their outcomes, and itself always succeeds. -/
theorem runSeqCaught_eff {R : Type} (bs : List (Run R)) :
    (runSeqCaught bs).eff = (bs.map Run.eff).flatten ∧
    (runSeqCaught bs).res = .ok () := by
  induction bs with
  | nil => simp [runSeqCaught]
  | cons b bs ih => simp [runSeqCaught, ih.1, ih.2]

/-- C6: on a live pool, a serial dispatch of a non-empty valid range (void
or value-returning form) packages the whole range as one composite task and
enqueues exactly that one composite; the composite executes the inputs
back-to-back in input order — when the tasks complete, the composite's
side-effect trace is the concatenation of the inputs' traces in input
order (for the value-returning form this holds whatever the outcomes, the
per-slot try/catch keeping the loop going). -/
theorem dispatchSerial_one_composite_in_input_order (R : Type) (s : PoolSt)
    (tv : List (Task Unit)) (tr : List (Task R)) (hd : s.destroyed = false)
    (hv : tv ≠ []) (hvok : ∀ t ∈ tv, t ≠ none)
    (hr : tr ≠ []) (hrok : ∀ t ∈ tr, t ≠ none) :
    dispatchSerialV s tv = .ok { s with queue := s.queue ++ [some (serialBody tv)] } ∧
    ((∀ t ∈ tv, (taskBody t).res = .ok ()) →
       (serialBody tv).eff = (tv.map (fun t => (taskBody t).eff)).flatten) ∧
    dispatchSerialR s tr = .ok { s with queue := s.queue ++ [some (serialRBody tr)] } ∧
    (serialRBody tr).eff = (tr.map (fun t => (taskBody t).eff)).flatten := by
  refine ⟨?_, ?_, ?_, ?_⟩
  · cases tv with
    | nil => exact absurd rfl hv
    | cons t ts =>
      simp [dispatchSerialV, checkArgsBulk_valid hd hvok, dispatchV, checkArgs1, hd]
  · intro hok
    have h := runSeq_all_ok (tv.map taskBody) (by
      intro b hb
      obtain ⟨t, ht, rfl⟩ := List.mem_map.mp hb
      exact hok t ht)
    rw [serialBody, h.1, List.map_map]
    rfl
  · cases tr with
    | nil => exact absurd rfl hr
    | cons t ts =>
      simp [dispatchSerialR, checkArgsBulk_valid hd hrok, dispatchV, checkArgs1, hd]
  · have h := runSeqCaught_eff (tr.map taskBody)
    rw [serialRBody, h.1, List.map_map]
    rfl

/-- Witness for C6: two concrete two-element batches, enqueued as single
composites whose traces are the in-order concatenations. -/
theorem dispatchSerial_one_composite_in_input_order_witness :
    dispatchSerialV ⟨false, []⟩
        [some { eff := [1], res := .ok () }, some { eff := [2], res := .ok () }] =
      .ok ⟨false, [some (serialBody
        [some { eff := [1], res := .ok () }, some { eff := [2], res := .ok () }])]⟩ ∧
    (serialBody
        [some { eff := [1], res := .ok () }, some { eff := [2], res := .ok () }]).eff =
      [1, 2] := by
  have h := dispatchSerial_one_composite_in_input_order Nat ⟨false, []⟩
    [some { eff := [1], res := .ok () }, some { eff := [2], res := .ok () }]
    [some { eff := [3], res := .ok 0 }]
    rfl (by simp) (by simp) (by simp) (by simp)
  refine ⟨h.1, ?_⟩
  have := h.2.1 (by decide)
  simpa using this

/-- C7: on a live pool, the value-returning serial dispatch of a non-empty
valid range enqueues one composite; slot `i` of the batch receives exactly
the outcome of task `i` (a failing task's own slot gets that failure), each
slot is populated — none is left unset — and the composite performs every
task's effects whatever the outcomes of the other tasks: a failure at one
position never stops the tasks after it from running. -/
theorem serialR_slots_set_independently (R : Type) (s : PoolSt)
    (tr : List (Task R)) (hd : s.destroyed = false)
    (hne : tr ≠ []) (hok : ∀ t ∈ tr, t ≠ none) :
    dispatchSerialR s tr = .ok { s with queue := s.queue ++ [some (serialRBody tr)] } ∧
    (∀ i : Nat, (serialRSlots tr)[i]? =
       (tr[i]?).map (fun t => runWrapperR (taskBody t))) ∧
    (∀ sl ∈ serialRSlots tr, sl ≠ Slot.unset) ∧
    (serialRBody tr).eff = (tr.map (fun t => (taskBody t).eff)).flatten := by
  refine ⟨?_, ?_, ?_, ?_⟩
  · cases tr with
    | nil => exact absurd rfl hne
    | cons t ts =>
      simp [dispatchSerialR, checkArgsBulk_valid hd hok, dispatchV, checkArgs1, hd]
  · intro i
    simp [serialRSlots]
  · intro sl hsl
    obtain ⟨t, _, rfl⟩ := List.mem_map.mp hsl
    cases hres : (taskBody t).res <;> simp [runWrapperR, hres]
  · have h := runSeqCaught_eff (tr.map taskBody)
    rw [serialRBody, h.1, List.map_map]
    rfl

/-- Witness for C7: a concrete batch whose middle task fails; its slot gets
the failure, the later task still contributes its effect and its slot gets
its value. -/
theorem serialR_slots_set_independently_witness :
    (serialRSlots [some { eff := [1], res := .ok 10 },
                   some { eff := [2], res := .exn (.code 5) },
                   some { eff := [3], res := .ok 30 }])[1]? =
      some (Slot.failure (.code 5)) ∧
    (serialRBody [some { eff := [1], res := .ok 10 },
                  some { eff := [2], res := .exn (.code 5) },
                  some ({ eff := [3], res := .ok 30 } : Run Nat)]).eff =
      [1, 2, 3] := by
  have h := serialR_slots_set_independently Nat ⟨false, []⟩
    [some { eff := [1], res := .ok 10 },
     some { eff := [2], res := .exn (.code 5) },
     some { eff := [3], res := .ok 30 }]
    rfl (by simp) (by simp)
  refine ⟨?_, ?_⟩
  · have := h.2.1 1
    simpa using this
  · have := h.2.2.2
    simpa using this

/-- Counterexample to C8 as stated: when the future resolves successfully
but the success callback itself raises, `onComplete`'s catch-all also
invokes the failure callback (with the failure raised by the success
callback) — both callbacks are invoked, not exactly one. -/
theorem onComplete_can_invoke_both_callbacks :
    onComplete (Res.ok 0) (fun _ : Nat => Res.exn (Exn.code 7)) =
      [CbCall.okCall 0, CbCall.errCall (Exn.code 7)] ∧
    (onComplete (Res.ok 0) (fun _ : Nat => Res.exn (Exn.code 7))).length ≠ 1 :=
  ⟨rfl, by decide⟩

/-- C8 (amended: provided the success callback does not itself raise): a
future resolved with a failure routes to the failure callback alone; a
future resolved with a value routes to the success callback with that
value, and only when the success callback itself raises is the failure
callback additionally invoked, with the failure the success callback
raised. -/
theorem onComplete_routes_callbacks (R : Type) (fut : Res R)
    (success : R → Res Unit) :
    (∀ e : Exn, fut = .exn e → onComplete fut success = [.errCall e]) ∧
    (∀ v : R, fut = .ok v → success v = .ok () →
       onComplete fut success = [.okCall v]) ∧
    (∀ (v : R) (e : Exn), fut = .ok v → success v = .exn e →
       onComplete fut success = [.okCall v, .errCall e]) := by
  refine ⟨?_, ?_, ?_⟩
  · intro e he
    simp [onComplete, he]
  · intro v hv hs
    simp [onComplete, hv, hs]
  · intro v e hv hs
    simp [onComplete, hv, hs]

/-- Witness for C8 (amended): a failed future routes to the failure
callback alone; a successful future with a non-raising success callback
routes to the success callback alone. -/
theorem onComplete_routes_callbacks_witness :
    onComplete (Res.exn (Exn.code 3)) (fun _ : Nat => Res.ok ()) =
      [CbCall.errCall (Exn.code 3)] ∧
    onComplete (Res.ok 5) (fun _ : Nat => Res.ok ()) = [CbCall.okCall 5] :=
  ⟨(onComplete_routes_callbacks Nat _ _).1 (Exn.code 3) rfl,
   (onComplete_routes_callbacks Nat _ _).2.1 5 rfl rfl⟩

/-- Counterexample to C10 as stated: on a live pool, `dispatchOnce` with a
null task does not fail with `invalidTask` — the acceptance gate only sees
the wrapper lambda, which is never null, so the wrapper is enqueued. -/
theorem dispatchOnce_null_task_passes_gate :
    dispatchOnce ⟨false, []⟩ false none =
      .ok ⟨false, [some (onceBody false none)]⟩ ∧
    dispatchOnce ⟨false, []⟩ false none ≠ .error .invalidTask :=
  ⟨rfl, fun h => Except.noConfusion h⟩

/-- C10 (amended): `dispatchOnce` runs the acceptance gate on the wrapper
lambda it builds, not on the supplied task.  The destroyed check therefore
still applies, but a null task passes the gate on a live pool and the
wrapper is enqueued; the null target only surfaces at execution time, when
`std::call_once` invokes it on a fresh flag and `std::bad_function_call`
is raised. -/
theorem dispatchOnce_gate_checks_wrapper (s : PoolSt) (flagUsed : Bool)
    (t : Task Unit) :
    (s.destroyed = true → dispatchOnce s flagUsed t = .error .poolDestroyed) ∧
    (s.destroyed = false →
       dispatchOnce s flagUsed t =
         .ok { s with queue := s.queue ++ [some (onceBody flagUsed t)] }) ∧
    (onceBody false none).res = .exn .badFunctionCall := by
  refine ⟨?_, ?_, rfl⟩
  · intro hd
    simp [dispatchOnce, dispatchV, checkArgs1_destroyed hd]
  · intro hd
    simp [dispatchOnce, dispatchV, checkArgs1, hd]

/-- Witness for C10 (amended): a destroyed pool rejects `dispatchOnce`
with `poolDestroyed`; a live pool accepts and enqueues the wrapper even
around a null task. -/
theorem dispatchOnce_gate_checks_wrapper_witness :
    dispatchOnce ⟨true, []⟩ false none = .error .poolDestroyed ∧
    dispatchOnce ⟨false, []⟩ true none =
      .ok { destroyed := false, queue := [some (onceBody true none)] } :=
  ⟨(dispatchOnce_gate_checks_wrapper ⟨true, []⟩ false none).1 rfl,
   (dispatchOnce_gate_checks_wrapper ⟨false, []⟩ true none).2.1 rfl⟩

end Gungnir
